import Mathlib

/-!
Shallow embedding of the SecureIoT-VIF security core: the behavioural anomaly
detector (anomaly_detector.c), the chunked firmware integrity engine
(integrity_checker.c), the continuous attestation protocol (se_manager.h) and
the incident escalation manager (incident_manager.c).  Impure collaborators
(timer, flash, crypto provider, FreeRTOS primitives) are passed explicitly as
an environment record; the C module-level globals become explicit state
records.  C float arithmetic is modelled over the real numbers.
-/

namespace SecureIoT

/-- Return codes of the ESP-IDF style esp_err_t values used by the modules. -/
inductive EspErr where
  | ok
  | fail
  | invalidArg
  | invalidState
  | noMem
  | notSupported
  | timeout
deriving DecidableEq, Repr

end SecureIoT

namespace SecureIoT.Anomaly

/-- Capacity of the circular history buffer (ANOMALY_HISTORY_SIZE, app_config.h). -/
def ANOMALY_HISTORY_SIZE : Nat := 100

/-- Minimum number of buffered samples before detection runs (ANOMALY_WINDOW_SIZE). -/
def ANOMALY_WINDOW_SIZE : Nat := 10

/-- Anomaly score threshold (ANOMALY_SCORE_THRESHOLD, app_config.h). -/
noncomputable def ANOMALY_SCORE_THRESHOLD : ℝ := 0.8

/-- Learning period in milliseconds (ANOMALY_LEARNING_PERIOD_MS, app_config.h). -/
def ANOMALY_LEARNING_PERIOD_MS : Nat := 300000

/-- anomaly_type_t from anomaly_detector.h. -/
inductive AnomalyType where
  | none
  | sensorData
  | systemBehavior
  | securityPattern
  | communication
  | performance
deriving DecidableEq, Repr

/-- sensor_data_t from dht22_driver.h: one telemetry reading. -/
structure SensorData where
  temperature : ℝ
  humidity : ℝ
  timestamp : Nat
  is_valid : Bool
  sensor_id : Nat
  quality_score : Nat

/-- anomaly_result_t from anomaly_detector.h.  Field defaults model the
C zero initialisation of the local result variable. -/
structure AnomalyResult where
  is_anomaly : Bool := false
  type : AnomalyType := AnomalyType.none
  anomaly_score : ℝ := 0
  timestamp : Nat := 0
  severity : Nat := 0
  detection_time_ms : Nat := 0

/-- anomaly_context_t from anomaly_detector.h plus the module flag
g_detector_initialized.  The fixed C matrix sensor_data[100][2] becomes a
function from buffer index to the (temperature, humidity) pair. -/
structure AnomalyContext where
  initialized : Bool
  sensor_data : Nat → ℝ × ℝ
  timestamps : Nat → Nat
  write_index : Nat
  sample_count : Nat
  is_learning : Bool
  learning_start_time : Nat

/-- anomaly_detector_init: memset the context to zero, enter learning mode and
record the start time (the clock value now stands for esp_timer_get_time()). -/
def anomaly_detector_init (now : Nat) : AnomalyContext :=
  { initialized := true
    sensor_data := fun _ => (0, 0)
    timestamps := fun _ => 0
    write_index := 0
    sample_count := 0
    is_learning := true
    learning_start_time := now }

/-- anomaly_update_baseline: append a valid sample to the circular history.
A missing (NULL) sample is modelled by Option.none. -/
def anomaly_update_baseline (data : Option SensorData) (ctx : AnomalyContext) :
    EspErr × AnomalyContext :=
  match data with
  | Option.none => (EspErr.invalidArg, ctx)
  | Option.some d =>
    if ctx.initialized = false ∨ d.is_valid = false then (EspErr.invalidArg, ctx)
    else
      let i := ctx.write_index
      (EspErr.ok,
        { ctx with
          sensor_data := Function.update ctx.sensor_data i (d.temperature, d.humidity)
          timestamps := Function.update ctx.timestamps i d.timestamp
          write_index := (i + 1) % ANOMALY_HISTORY_SIZE
          sample_count :=
            if ctx.sample_count < ANOMALY_HISTORY_SIZE then ctx.sample_count + 1
            else ctx.sample_count })

/-- calculate_zscore from anomaly_detector.c: zero when the deviation is zero,
otherwise the absolute standardised deviation. -/
noncomputable def calculate_zscore (value mean std_dev : ℝ) : ℝ :=
  if std_dev = 0 then 0 else |(value - mean) / std_dev|

/-- calculate_statistics from anomaly_detector.c: mean, and the sample
standard deviation (division by count - 1) when more than one point exists. -/
noncomputable def calculate_statistics (data : List ℝ) : ℝ × ℝ :=
  if data.length = 0 then (0, 0)
  else
    let mean := data.sum / (data.length : ℝ)
    if 1 < data.length then
      let variance :=
        ((data.map fun x => (x - mean) * (x - mean)).sum) / ((data.length - 1 : Nat) : ℝ)
      (mean, Real.sqrt variance)
    else
      (mean, 0)

/-- The temperature column of the analysed window, exactly the extraction loop
of anomaly_detect_sensor_data (indices 0 .. MIN(sample_count, 100) - 1). -/
def tempHistoryIdx (ctx : AnomalyContext) : List Nat :=
  List.range (min ctx.sample_count ANOMALY_HISTORY_SIZE)

/-- Temperature values extracted for analysis. -/
def tempHistory (ctx : AnomalyContext) : List ℝ :=
  (tempHistoryIdx ctx).map fun i => (ctx.sensor_data i).1

/-- Humidity values extracted for analysis. -/
def humidityHistory (ctx : AnomalyContext) : List ℝ :=
  (tempHistoryIdx ctx).map fun i => (ctx.sensor_data i).2

/-- anomaly_detect_sensor_data from anomaly_detector.c.  Returns the result
record and the successor detector state. -/
noncomputable def anomaly_detect_sensor_data (data : Option SensorData)
    (ctx : AnomalyContext) (now : Nat) : AnomalyResult × AnomalyContext :=
  match data with
  | Option.none => ({}, ctx)
  | Option.some d =>
    if ctx.initialized = false ∨ d.is_valid = false then ({}, ctx)
    else
      let ctx1 := (anomaly_update_baseline (Option.some d) ctx).2
      if ctx1.is_learning = true ∧
          now - ctx1.learning_start_time < ANOMALY_LEARNING_PERIOD_MS * 1000 then
        ({}, ctx1)
      else
        let ctx2 := if ctx1.is_learning then { ctx1 with is_learning := false } else ctx1
        if ctx2.sample_count < ANOMALY_WINDOW_SIZE then ({}, ctx2)
        else
          let tstats := calculate_statistics (tempHistory ctx2)
          let hstats := calculate_statistics (humidityHistory ctx2)
          let temp_zscore := calculate_zscore d.temperature tstats.1 tstats.2
          let humidity_zscore := calculate_zscore d.humidity hstats.1 hstats.2
          let max_zscore := max temp_zscore humidity_zscore
          let score := min (max_zscore / 3) 1
          let anom : Bool := if ANOMALY_SCORE_THRESHOLD < score then true else false
          ({ is_anomaly := anom
             type := if anom then AnomalyType.sensorData else AnomalyType.none
             anomaly_score := score
             timestamp := d.timestamp
             severity :=
               if anom then
                 if (0.9 : ℝ) < score then 4
                 else if (0.7 : ℝ) < score then 3
                 else if (0.5 : ℝ) < score then 2
                 else 1
               else 0 }, ctx2)

end SecureIoT.Anomaly

namespace SecureIoT.Integrity

/-- INTEGRITY_MAX_CHUNKS from integrity_checker.h. -/
def INTEGRITY_MAX_CHUNKS : Nat := 256

/-- INTEGRITY_CHUNK_SIZE from integrity_checker.h. -/
def INTEGRITY_CHUNK_SIZE : Nat := 4096

/-- INTEGRITY_MAGIC from integrity_checker.c. -/
def INTEGRITY_MAGIC : Nat := 0x53454349

/-- INTEGRITY_METADATA_VERSION from integrity_checker.c. -/
def INTEGRITY_METADATA_VERSION : Nat := 1

/-- Cap on recorded failing chunk ids (failed_chunk_ids[16]). -/
def FAILED_IDS_CAP : Nat := 16

/-- integrity_status_t from integrity_checker.h. -/
inductive IntegrityStatus where
  | ok
  | corrupted
  | signatureInvalid
  | hashMismatch
  | metadataError
  | notInitialized
  | memoryError
  | flashReadError
  | timeout
  | unknown
deriving DecidableEq, Repr

/-- firmware_section_type_t from integrity_checker.h. -/
inductive FirmwareSection where
  | bootloader
  | app
  | partitionTable
  | config
  | data
  | custom
deriving DecidableEq, Repr

/-- integrity_method_t from integrity_checker.h. -/
inductive IntegrityMethod where
  | hash
  | signature
  | mac
  | hybrid
deriving DecidableEq, Repr

/-- Numeric value of an integrity_method_t enumerator (for serialization). -/
def IntegrityMethod.code : IntegrityMethod → Nat
  | IntegrityMethod.hash => 0
  | IntegrityMethod.signature => 1
  | IntegrityMethod.mac => 2
  | IntegrityMethod.hybrid => 3

/-- integrity_chunk_info_t from integrity_checker.h.  Digests and signatures
are byte lists. -/
structure ChunkInfo where
  chunk_id : Nat
  start_address : Nat
  size : Nat
  hash : List Nat
  signature : List Nat
  section_type : FirmwareSection
  priority : Nat
  last_check_time : Nat
  check_count : Nat
  is_critical : Bool
  is_verified : Bool
deriving DecidableEq, Repr

/-- integrity_metadata_t from integrity_checker.h. -/
structure IntegrityMetadata where
  magic : Nat
  version : Nat
  firmware_size : Nat
  chunk_count : Nat
  chunk_size : Nat
  global_hash : List Nat
  global_signature : List Nat
  verification_method : IntegrityMethod
  timestamp : Nat
  build_id : Nat
  checksum : Nat
deriving DecidableEq, Repr

/-- integrity_config_t from integrity_checker.h. -/
structure IntegrityConfig where
  enable_runtime_check : Bool
  enable_incremental_check : Bool
  enable_critical_only : Bool
  check_interval_ms : Nat
  chunk_size : Nat
  max_concurrent_checks : Nat
  preferred_method : IntegrityMethod
  signature_key_slot : Nat
  mac_key_slot : Nat
deriving DecidableEq, Repr

/-- Default configuration built inside integrity_checker_init when the config
pointer is NULL. -/
def defaultConfig : IntegrityConfig :=
  { enable_runtime_check := true
    enable_incremental_check := true
    enable_critical_only := false
    check_interval_ms := 5000
    chunk_size := INTEGRITY_CHUNK_SIZE
    max_concurrent_checks := 2
    preferred_method := IntegrityMethod.hybrid
    signature_key_slot := 1
    mac_key_slot := 2 }

/-- integrity_result_t from integrity_checker.h; defaults model the memset to
zero performed before a verification pass. -/
structure IntegrityResult where
  status : IntegrityStatus := IntegrityStatus.ok
  total_chunks : Nat := 0
  verified_chunks : Nat := 0
  failed_chunks : Nat := 0
  corrupted_chunks : Nat := 0
  verification_time_ms : Nat := 0
  failed_chunk_ids : List Nat := []
  failed_count : Nat := 0
  has_corruption : Bool := false
  signature_valid : Bool := false
deriving DecidableEq, Repr

/-- integrity_stats_t from integrity_checker.h. -/
structure IntegrityStats where
  total_checks : Nat := 0
  successful_checks : Nat := 0
  failed_checks : Nat := 0
  corruption_detections : Nat := 0
  total_check_time_us : Nat := 0
  last_full_check_time : Nat := 0
  avg_check_time_ms : Nat := 0
  max_check_time_ms : Nat := 0
  min_check_time_ms : Nat := 0
deriving DecidableEq, Repr

/-- The module-level mutable state of integrity_checker.c
(g_integrity_initialized, g_config, g_metadata, g_chunks, g_stats).  The fixed
array g_chunks[256] is a function from chunk index to chunk record. -/
structure IntegrityState where
  initialized : Bool
  config : IntegrityConfig
  metadata : IntegrityMetadata
  chunks : Nat → ChunkInfo
  stats : IntegrityStats

/-- The impure collaborators of the integrity and attestation modules: flash
contents, the SHA-256 function of the crypto provider, allocation and lock
outcomes, the signature oracle of the secure element, and the current time. -/
structure Env where
  flash : Nat → Nat
  sha256 : List Nat → List Nat
  mallocOk : Bool
  flashReadOk : Bool
  hashOk : Bool
  seVerifySignature : List Nat → List Nat → List Nat → Bool
  mutexOk : Bool
  mutexCreateOk : Bool
  now : Nat

/-- secure_flash_read: the chunk bytes fetched from flash. -/
def flashRead (env : Env) (addr size : Nat) : List Nat :=
  (List.range size).map fun i => env.flash (addr + i)

/-- calculate_chunk_hash from integrity_checker.c: allocation, flash read and
hash computation can each fail with the corresponding status. -/
def calculate_chunk_hash (env : Env) (chunk : ChunkInfo) :
    Except IntegrityStatus (List Nat) :=
  if env.mallocOk = false then Except.error IntegrityStatus.memoryError
  else if env.flashReadOk = false then Except.error IntegrityStatus.flashReadError
  else if env.hashOk = false then Except.error IntegrityStatus.memoryError
  else Except.ok (env.sha256 (flashRead env chunk.start_address chunk.size))

/-- signature_verify_chunk from signature_verifier.c: the verdict of
se_verify_signature over (chunk signature, chunk hash, chunk signature). -/
def signature_verify_chunk (env : Env) (chunk : ChunkInfo) : Bool :=
  env.seVerifySignature chunk.signature chunk.hash chunk.signature

/-- signature_verify_firmware from signature_verifier.c, over the metadata
global signature and global hash. -/
def signature_verify_firmware (env : Env) (md : IntegrityMetadata) : Bool :=
  env.seVerifySignature md.global_signature md.global_hash md.global_signature

/-- Whether the configured method requires signature verification
(INTEGRITY_METHOD_SIGNATURE or INTEGRITY_METHOD_HYBRID). -/
def methodUsesSignature (m : IntegrityMethod) : Bool :=
  m = IntegrityMethod.signature ∨ m = IntegrityMethod.hybrid

/-- integrity_check_chunk from integrity_checker.c.  Recomputes the digest of
the chunk, compares it with the stored reference, optionally verifies the
chunk signature, and updates the chunk bookkeeping fields.  The engine
statistics are not touched on any path, exactly as in the source. -/
def integrity_check_chunk (env : Env) (st : IntegrityState) (chunk_id : Nat) :
    IntegrityStatus × IntegrityState :=
  if st.initialized = false ∨ st.metadata.chunk_count ≤ chunk_id ∨
      INTEGRITY_MAX_CHUNKS ≤ chunk_id then
    (IntegrityStatus.notInitialized, st)
  else
    let chunk := st.chunks chunk_id
    match calculate_chunk_hash env chunk with
    | Except.error s => (s, st)
    | Except.ok current =>
      if current ≠ chunk.hash then
        (IntegrityStatus.corrupted,
          { st with chunks :=
              Function.update st.chunks chunk_id { chunk with is_verified := false } })
      else if methodUsesSignature st.config.preferred_method ∧
          signature_verify_chunk env chunk = false then
        (IntegrityStatus.signatureInvalid,
          { st with chunks :=
              Function.update st.chunks chunk_id { chunk with is_verified := false } })
      else
        (IntegrityStatus.ok,
          { st with chunks := (Function.update st.chunks chunk_id
                { chunk with
                  is_verified := true
                  last_check_time := env.now / 1000000
                  check_count := chunk.check_count + 1 }) })

/-- One iteration of the per-chunk aggregation switch shared by
integrity_check_firmware_detailed and integrity_check_critical_sections. -/
def recordChunkStatus (r : IntegrityResult) (i : Nat) (s : IntegrityStatus) :
    IntegrityResult :=
  match s with
  | IntegrityStatus.ok => { r with verified_chunks := r.verified_chunks + 1 }
  | IntegrityStatus.corrupted =>
    { r with
      corrupted_chunks := r.corrupted_chunks + 1
      has_corruption := true
      failed_chunk_ids :=
        if r.failed_count < FAILED_IDS_CAP then r.failed_chunk_ids ++ [i]
        else r.failed_chunk_ids
      failed_count :=
        if r.failed_count < FAILED_IDS_CAP then r.failed_count + 1 else r.failed_count
      status := IntegrityStatus.corrupted }
  | s =>
    { r with
      failed_chunks := r.failed_chunks + 1
      failed_chunk_ids :=
        if r.failed_count < FAILED_IDS_CAP then r.failed_chunk_ids ++ [i]
        else r.failed_chunk_ids
      failed_count :=
        if r.failed_count < FAILED_IDS_CAP then r.failed_count + 1 else r.failed_count
      status := if r.status = IntegrityStatus.ok then s else r.status }

/-- The verification loop of integrity_check_firmware_detailed: check every
chunk index below MIN(chunk_count, INTEGRITY_MAX_CHUNKS), threading the
engine state. -/
def fullScanLoop (env : Env) (acc : IntegrityResult × IntegrityState)
    (idxs : List Nat) : IntegrityResult × IntegrityState :=
  idxs.foldl
    (fun acc i =>
      let out := integrity_check_chunk env acc.2 i
      (recordChunkStatus acc.1 i out.1, out.2))
    acc

/-- Global-signature postlude of integrity_check_firmware_detailed. -/
def applyGlobalSignature (env : Env) (st : IntegrityState) (r : IntegrityResult) :
    IntegrityResult :=
  if methodUsesSignature st.config.preferred_method then
    if signature_verify_firmware env st.metadata then { r with signature_valid := true }
    else
      { r with
        signature_valid := false
        status := if r.status = IntegrityStatus.ok then IntegrityStatus.signatureInvalid
                  else r.status }
  else { r with signature_valid := true }

/-- integrity_check_firmware_detailed from integrity_checker.c.  Returns the
status, the filled result record (none when the function returns before
writing the caller's result: not initialized, or mutex timeout), and the
successor state. -/
def integrity_check_firmware_detailed (env : Env) (st : IntegrityState) :
    IntegrityStatus × Option IntegrityResult × IntegrityState :=
  if st.initialized = false then (IntegrityStatus.notInitialized, Option.none, st)
  else if env.mutexOk = false then (IntegrityStatus.timeout, Option.none, st)
  else
    let r0 : IntegrityResult := { total_chunks := st.metadata.chunk_count }
    let out := fullScanLoop env (r0, st)
      (List.range (min st.metadata.chunk_count INTEGRITY_MAX_CHUNKS))
    let r := applyGlobalSignature env out.2 out.1
    (r.status, Option.some r, out.2)

/-- integrity_check_firmware from integrity_checker.c: the detailed pass with
a local result record. -/
def integrity_check_firmware (env : Env) (st : IntegrityState) :
    IntegrityStatus × IntegrityState :=
  if st.initialized = false then (IntegrityStatus.notInitialized, st)
  else
    let out := integrity_check_firmware_detailed env st
    (out.1, out.2.2)

/-- integrity_check_critical_sections from integrity_checker.c: the same loop
restricted to chunks whose is_critical flag is set; total_chunks counts only
the critical chunks.  No global signature check is performed. -/
def integrity_check_critical_sections (env : Env) (st : IntegrityState) :
    IntegrityStatus × Option IntegrityResult × IntegrityState :=
  if st.initialized = false then (IntegrityStatus.notInitialized, Option.none, st)
  else
    let out :=
      (List.range (min st.metadata.chunk_count INTEGRITY_MAX_CHUNKS)).foldl
        (fun (acc : IntegrityResult × IntegrityState) i =>
          if (acc.2.chunks i).is_critical then
            let r1 := { acc.1 with total_chunks := acc.1.total_chunks + 1 }
            let out := integrity_check_chunk env acc.2 i
            (recordChunkStatus r1 i out.1, out.2)
          else acc)
        (({} : IntegrityResult), st)
    (out.1.status, Option.some out.1, out.2)

/-- Little-endian 32-bit serialization of a field value, for the byte walk of
calculate_metadata_checksum. -/
def le32 (n : Nat) : List Nat :=
  [n % 256, n / 256 % 256, n / 65536 % 256, n / 16777216 % 256]

/-- Fixed-width byte image of a stored byte array field. -/
def bytesOf (l : List Nat) (n : Nat) : List Nat :=
  (List.range n).map fun i => (l.getD i 0) % 256

/-- The in-memory bytes of an integrity_metadata_t record, in declaration
order, excluding the trailing checksum field (sizeof(struct) - sizeof(uint32)
bytes, no padding between the 32-bit-aligned fields). -/
def metadataBytes (md : IntegrityMetadata) : List Nat :=
  le32 md.magic ++ le32 md.version ++ le32 md.firmware_size ++
  le32 md.chunk_count ++ le32 md.chunk_size ++
  bytesOf md.global_hash 32 ++ bytesOf md.global_signature 64 ++
  le32 md.verification_method.code ++ le32 md.timestamp ++ le32 md.build_id

/-- calculate_metadata_checksum from integrity_checker.c: fold
checksum = (checksum << 1) ^ byte over the metadata bytes, in 32-bit
arithmetic. -/
def calculate_metadata_checksum (md : IntegrityMetadata) : Nat :=
  (metadataBytes md).foldl (fun c b => ((c * 2) % 4294967296) ^^^ b) 0

/-- integrity_validate_metadata from integrity_checker.c: magic tag, version
and self-checksum must all match. -/
def integrity_validate_metadata (md : IntegrityMetadata) : Bool :=
  md.magic = INTEGRITY_MAGIC ∧ md.version = INTEGRITY_METADATA_VERSION ∧
    calculate_metadata_checksum md = md.checksum

/-- integrity_generate_chunks from integrity_checker.c (called by init with
firmware_start = firmware_size as in the source). -/
def integrity_generate_chunks (firmware_start firmware_size chunk_size : Nat)
    (env : Env) (st : IntegrityState) : IntegrityState :=
  let chunk_count := min ((firmware_size + chunk_size - 1) / chunk_size) INTEGRITY_MAX_CHUNKS
  let base : Nat → ChunkInfo := fun i =>
    if i < chunk_count then
      let c : ChunkInfo :=
        { chunk_id := i
          start_address := firmware_start + i * chunk_size
          size := min chunk_size (firmware_size - i * chunk_size)
          hash := []
          signature := (st.chunks i).signature
          section_type := FirmwareSection.app
          priority := 3
          last_check_time := (st.chunks i).last_check_time
          check_count := (st.chunks i).check_count
          is_critical := i < 4
          is_verified := false }
      { c with hash := (calculate_chunk_hash env c).toOption.getD (st.chunks i).hash }
    else st.chunks i
  { st with
    metadata := { st.metadata with chunk_count := chunk_count }
    chunks := base }

/-- integrity_checker_init from integrity_checker.c.  The NVS metadata read
is the in-source stub that returns ESP_OK and leaves g_metadata as it is, so
the fresh-metadata branch never runs; validation then decides whether the
engine starts. -/
def integrity_checker_init (cfg : Option IntegrityConfig) (env : Env)
    (st : IntegrityState) : SecureIoT.EspErr × IntegrityState :=
  if st.initialized then (SecureIoT.EspErr.ok, st)
  else
    let st1 := { st with config := cfg.getD defaultConfig }
    if env.mutexCreateOk = false then (SecureIoT.EspErr.noMem, st1)
    else
      let st2 := { st1 with stats := ({ min_check_time_ms := 4294967295 } : IntegrityStats) }
      if integrity_validate_metadata st2.metadata = false then
        (SecureIoT.EspErr.fail, st2)
      else
        let st3 :=
          if st2.metadata.chunk_count = 0 then
            integrity_generate_chunks st2.metadata.firmware_size
              st2.metadata.firmware_size st2.config.chunk_size env st2
          else st2
        (SecureIoT.EspErr.ok, { st3 with initialized := true })

end SecureIoT.Integrity

namespace SecureIoT.Attestation

open SecureIoT.Integrity

/-- ATTESTATION_CHALLENGE_SIZE from attestation_manager.h. -/
def ATTESTATION_CHALLENGE_SIZE : Nat := 32

/-- ATTESTATION_RESPONSE_SIZE from attestation_manager.h. -/
def ATTESTATION_RESPONSE_SIZE : Nat := 128

/-- ATTESTATION_CERT_SIZE from attestation_manager.h. -/
def ATTESTATION_CERT_SIZE : Nat := 512

/-- SE_SIGNATURE_SIZE from se_manager.h. -/
def SE_SIGNATURE_SIZE : Nat := 64

/-- SE_CERTIFICATE_SIZE from se_manager.h. -/
def SE_CERTIFICATE_SIZE : Nat := 512

/-- attestation_status_t from attestation_manager.h. -/
inductive AttestationStatus where
  | success
  | invalidChallenge
  | signatureFailed
  | certificateInvalid
  | timeout
  | communication
deriving DecidableEq, Repr

/-- attestation_result_t from attestation_manager.h; defaults model the
zero-initialised local record (status 0 is ATTESTATION_SUCCESS). -/
structure AttestationResult where
  status : AttestationStatus := AttestationStatus.success
  challenge : List Nat := []
  response : List Nat := []
  device_certificate : List Nat := []
  timestamp : Nat := 0
  is_valid : Bool := false
  sequence_number : Nat := 0
deriving DecidableEq, Repr

/-- se_attestation_t from se_manager.h: the secure-element response to a
challenge. -/
structure SeAttestation where
  response : List Nat
  device_cert : List Nat
  timestamp : Nat
  is_valid : Bool
deriving DecidableEq, Repr

/-- The impure collaborators of the attestation manager: the random source
and the secure-element attestation primitive. -/
structure AttEnv where
  randomOk : Bool
  randomBytes : List Nat
  seAttestOk : Bool
  seAttestation : SeAttestation
deriving DecidableEq, Repr

/-- The module-level state of the attestation manager
(g_attestation_initialized and g_sequence_counter). -/
structure AttState where
  initialized : Bool
  sequence_counter : Nat
deriving DecidableEq, Repr

/-- attestation_respond_to_challenge from se_manager.h: copy the challenge,
run the secure-element attestation, and fill the caller's result record. -/
def attestation_respond_to_challenge (env : AttEnv) (challenge : List Nat)
    (r : AttestationResult) : SecureIoT.EspErr × AttestationResult :=
  if challenge.length ≠ ATTESTATION_CHALLENGE_SIZE then (SecureIoT.EspErr.invalidArg, r)
  else
    let r1 := { r with challenge := challenge }
    if env.seAttestOk = false then (SecureIoT.EspErr.fail, r1)
    else
      let a := env.seAttestation
      (SecureIoT.EspErr.ok,
        { r1 with
          response := bytesOf a.response (min ATTESTATION_RESPONSE_SIZE SE_SIGNATURE_SIZE)
          device_certificate := bytesOf a.device_cert (min ATTESTATION_CERT_SIZE SE_CERTIFICATE_SIZE)
          timestamp := a.timestamp
          is_valid := a.is_valid
          status :=
            if a.is_valid then AttestationStatus.success
            else AttestationStatus.signatureFailed })

/-- attestation_perform_continuous from se_manager.h: generate a random
challenge, answer it through the signing path, then run the firmware
integrity check; only if everything held is the sequence number advanced and
the record marked successful. -/
def attestation_perform_continuous (env : AttEnv) (ienv : Env)
    (ast : AttState) (ist : IntegrityState) :
    AttestationResult × AttState × IntegrityState :=
  let r0 : AttestationResult := {}
  if ast.initialized = false then
    ({ r0 with status := AttestationStatus.communication }, ast, ist)
  else if env.randomOk = false then
    ({ r0 with status := AttestationStatus.communication }, ast, ist)
  else
    let challenge := bytesOf env.randomBytes ATTESTATION_CHALLENGE_SIZE
    let resp := attestation_respond_to_challenge env challenge r0
    if resp.1 ≠ SecureIoT.EspErr.ok then
      ({ resp.2 with status := AttestationStatus.signatureFailed }, ast, ist)
    else
      let ichk := integrity_check_firmware ienv ist
      if ichk.1 ≠ IntegrityStatus.ok then
        ({ resp.2 with status := AttestationStatus.signatureFailed }, ast, ichk.2)
      else
        let seq := ast.sequence_counter + 1
        ({ resp.2 with
           sequence_number := seq
           status := AttestationStatus.success
           is_valid := true },
         { ast with sequence_counter := seq }, ichk.2)

end SecureIoT.Attestation

namespace SecureIoT.Incident

/-- Severity constants from app_config.h (SECURITY_SEVERITY_INFO = 1 up to
SECURITY_SEVERITY_CRITICAL = 5); events carry the numeric value. -/
def SECURITY_SEVERITY_CRITICAL : Nat := 5

/-- security_event_t from incident_manager.h. -/
structure SecurityEvent where
  eventType : Nat
  timestamp : Nat
  severity : Nat
  description : List Nat := []
  data : List Nat := []
deriving DecidableEq, Repr

/-- incident_stats_t from incident_manager.h. -/
structure IncidentStats where
  total_incidents : Nat := 0
  critical_incidents : Nat := 0
  resolved_incidents : Nat := 0
  active_incidents : Nat := 0
  last_incident_time : Nat := 0
  integrity_failures : Nat := 0
  anomaly_detections : Nat := 0
  attestation_failures : Nat := 0
deriving DecidableEq, Repr

/-- Module state of incident_manager.c (g_incident_initialized, g_stats). -/
structure IncidentState where
  initialized : Bool
  stats : IncidentStats
deriving DecidableEq, Repr

/-- incident_handle_integrity_failure: counts the incident in the total,
critical and category counters and stamps the incident time; the emergency
snapshot above the severity threshold is an external side effect. -/
def incident_handle_integrity_failure (event : Option SecurityEvent)
    (st : IncidentState) (now : Nat) : SecureIoT.EspErr × IncidentState :=
  match event with
  | Option.none => (SecureIoT.EspErr.invalidArg, st)
  | Option.some _ =>
    if st.initialized = false then (SecureIoT.EspErr.invalidArg, st)
    else
      (SecureIoT.EspErr.ok,
        { st with stats :=
            { st.stats with
              total_incidents := st.stats.total_incidents + 1
              critical_incidents := st.stats.critical_incidents + 1
              integrity_failures := st.stats.integrity_failures + 1
              active_incidents := st.stats.active_incidents + 1
              last_incident_time := now } })

/-- incident_handle_anomaly: counts the incident in the total and category
counters (the critical counter is not touched) and stamps the time. -/
def incident_handle_anomaly (event : Option SecurityEvent)
    (st : IncidentState) (now : Nat) : SecureIoT.EspErr × IncidentState :=
  match event with
  | Option.none => (SecureIoT.EspErr.invalidArg, st)
  | Option.some _ =>
    if st.initialized = false then (SecureIoT.EspErr.invalidArg, st)
    else
      (SecureIoT.EspErr.ok,
        { st with stats :=
            { st.stats with
              total_incidents := st.stats.total_incidents + 1
              anomaly_detections := st.stats.anomaly_detections + 1
              active_incidents := st.stats.active_incidents + 1
              last_incident_time := now } })

/-- incident_handle_attestation_failure: counts the incident in the total and
category counters (the critical counter is not touched) and stamps the time. -/
def incident_handle_attestation_failure (event : Option SecurityEvent)
    (st : IncidentState) (now : Nat) : SecureIoT.EspErr × IncidentState :=
  match event with
  | Option.none => (SecureIoT.EspErr.invalidArg, st)
  | Option.some _ =>
    if st.initialized = false then (SecureIoT.EspErr.invalidArg, st)
    else
      (SecureIoT.EspErr.ok,
        { st with stats :=
            { st.stats with
              total_incidents := st.stats.total_incidents + 1
              attestation_failures := st.stats.attestation_failures + 1
              active_incidents := st.stats.active_incidents + 1
              last_incident_time := now } })

/-- incident_handle_unauthorized_access: counts the incident in the total and
critical counters (there is no category counter for this event kind in
incident_stats_t) and stamps the time; enabling secure mode is an external
side effect. -/
def incident_handle_unauthorized_access (event : Option SecurityEvent)
    (st : IncidentState) (now : Nat) : SecureIoT.EspErr × IncidentState :=
  match event with
  | Option.none => (SecureIoT.EspErr.invalidArg, st)
  | Option.some _ =>
    if st.initialized = false then (SecureIoT.EspErr.invalidArg, st)
    else
      (SecureIoT.EspErr.ok,
        { st with stats :=
            { st.stats with
              total_incidents := st.stats.total_incidents + 1
              critical_incidents := st.stats.critical_incidents + 1
              active_incidents := st.stats.active_incidents + 1
              last_incident_time := now } })

end SecureIoT.Incident

namespace SecureIoT.Integrity

/-- A deterministic environment: zero flash, a constant one-byte digest
function, all collaborators healthy. -/
def envW : Env :=
  { flash := fun _ => 0
    sha256 := fun _ => [0]
    mallocOk := true
    flashReadOk := true
    hashOk := true
    seVerifySignature := fun _ _ _ => true
    mutexOk := true
    mutexCreateOk := true
    now := 0 }

/-- A critical chunk whose stored reference digest matches the digest envW
recomputes from flash. -/
def chunkGood : ChunkInfo :=
  { chunk_id := 0
    start_address := 0
    size := 1
    hash := [0]
    signature := [0]
    section_type := FirmwareSection.app
    priority := 3
    last_check_time := 0
    check_count := 0
    is_critical := true
    is_verified := false }

/-- A non-critical chunk whose stored reference digest does not match the
recomputed digest: its bytes have been mutated. -/
def chunkBad : ChunkInfo := { chunkGood with hash := [1], is_critical := false }

/-- A metadata block with valid magic and version whose serialized image ends
in zero bytes, so its shift-xor self-checksum is 0. -/
def mdT : IntegrityMetadata :=
  { magic := INTEGRITY_MAGIC
    version := 1
    firmware_size := 0
    chunk_count := 0
    chunk_size := 0
    global_hash := []
    global_signature := []
    verification_method := IntegrityMethod.hash
    timestamp := 0
    build_id := 0
    checksum := 0 }

/-- Metadata describing a one-chunk image. -/
def mdOne : IntegrityMetadata :=
  { mdT with firmware_size := 1, chunk_count := 1, chunk_size := 1,
             global_hash := [0], global_signature := [0] }

/-- An initialised engine whose single chunk is intact. -/
def stGood : IntegrityState :=
  { initialized := true
    config := { defaultConfig with preferred_method := IntegrityMethod.hash }
    metadata := mdOne
    chunks := fun _ => chunkGood
    stats := {} }

/-- The same engine with its single chunk mutated. -/
def stBad : IntegrityState := { stGood with chunks := fun _ => chunkBad }

/-- A five-chunk engine whose four critical chunks are intact while the
fifth, non-critical chunk is corrupted. -/
def stMixed : IntegrityState :=
  { stGood with
    metadata := { mdOne with firmware_size := 5, chunk_count := 5 }
    chunks := fun i => if i < 4 then chunkGood else chunkBad }

/-- The result record the detailed verification produces on stGood. -/
def resultGood : IntegrityResult :=
  { status := IntegrityStatus.ok, total_chunks := 1, verified_chunks := 1,
    signature_valid := true }

/-- A tampered metadata block: the stored self-checksum 1 differs from the
recomputed self-checksum 0. -/
def mdTampered : IntegrityMetadata := { mdT with checksum := 1 }

/-- An engine that has not started yet and whose persisted metadata is the
tampered block. -/
def stTampered : IntegrityState :=
  { initialized := false
    config := defaultConfig
    metadata := mdTampered
    chunks := fun _ => chunkGood
    stats := {} }

end SecureIoT.Integrity

namespace SecureIoT.Attestation

/-- A healthy attestation environment: working random source, secure element
answering with a valid signed response. -/
def attEnvW : AttEnv :=
  { randomOk := true
    randomBytes := List.replicate 32 7
    seAttestOk := true
    seAttestation := { response := [1], device_cert := [2], timestamp := 9, is_valid := true } }

/-- An initialised attestation manager at sequence 0. -/
def astW : AttState := { initialized := true, sequence_counter := 0 }

end SecureIoT.Attestation

namespace SecureIoT.Anomaly

/-- A valid sample with a wildly extreme temperature, far outside any
plausible baseline. -/
def sampleExtreme : SensorData :=
  { temperature := 1000000, humidity := 50, timestamp := 1, is_valid := true,
    sensor_id := 0, quality_score := 100 }

/-- A history buffer of 37 samples: 36 temperature readings of 275/12 and one
of 23, all with humidity 50.  Together with a new reading of 26 the analysed
window has temperature mean 23 and sample standard deviation 1/2. -/
noncomputable def bufScoring : Nat → ℝ × ℝ := fun i =>
  if i < 36 then (275 / 12, 50) else if i = 36 then (23, 50) else (0, 0)

/-- An Active detector holding the 37-sample scoring history. -/
noncomputable def ctxScoring : AnomalyContext :=
  { initialized := true
    sensor_data := bufScoring
    timestamps := fun _ => 0
    write_index := 37
    sample_count := 37
    is_learning := false
    learning_start_time := 0 }

/-- The new valid sample of temperature 26. -/
def sampleHot : SensorData :=
  { temperature := 26, humidity := 50, timestamp := 11, is_valid := true,
    sensor_id := 0, quality_score := 100 }

end SecureIoT.Anomaly

namespace SecureIoT.Incident

/-- A freshly initialised incident manager state (incident_manager_init). -/
def incidentStart : IncidentState := { initialized := true, stats := {} }

/-- A sample security event. -/
def sampleEvent : SecurityEvent := { eventType := 1, timestamp := 3, severity := 5 }

/-- Claim C5 counterexample: handling an anomaly event in the fresh state
succeeds but leaves the critical-incidents counter at 0, so not every
successfully handled event increments the critical-incidents counter as the
claim states. -/
theorem claim5_counterexample :
    (incident_handle_anomaly (Option.some sampleEvent) incidentStart 7).1 = SecureIoT.EspErr.ok ∧
    (incident_handle_anomaly (Option.some sampleEvent) incidentStart 7).2.stats.critical_incidents = 0 ∧
    (incident_handle_anomaly (Option.some sampleEvent) incidentStart 7).2.stats.critical_incidents ≠
      incidentStart.stats.critical_incidents + 1 := by
  refine ⟨rfl, rfl, ?_⟩
  decide

/-- Claim C5 (amended): on a successfully handled event every handler
increments its category counter where one exists (integrity, anomaly,
attestation; the unauthorized-access handler has no category counter), the
total counter, the active counter, and updates the last-incident timestamp;
only the integrity-failure and unauthorized-access handlers increment the
critical-incidents counter.  No handler ever decreases or resets a counter. -/
theorem claim5_incident_counters (e : SecurityEvent) (st : IncidentState) (now : Nat)
    (hinit : st.initialized = true) :
    ((incident_handle_integrity_failure (Option.some e) st now).1 = SecureIoT.EspErr.ok ∧
      (incident_handle_integrity_failure (Option.some e) st now).2.stats =
        { st.stats with
          total_incidents := st.stats.total_incidents + 1
          critical_incidents := st.stats.critical_incidents + 1
          integrity_failures := st.stats.integrity_failures + 1
          active_incidents := st.stats.active_incidents + 1
          last_incident_time := now }) ∧
    ((incident_handle_anomaly (Option.some e) st now).1 = SecureIoT.EspErr.ok ∧
      (incident_handle_anomaly (Option.some e) st now).2.stats =
        { st.stats with
          total_incidents := st.stats.total_incidents + 1
          anomaly_detections := st.stats.anomaly_detections + 1
          active_incidents := st.stats.active_incidents + 1
          last_incident_time := now }) ∧
    ((incident_handle_attestation_failure (Option.some e) st now).1 = SecureIoT.EspErr.ok ∧
      (incident_handle_attestation_failure (Option.some e) st now).2.stats =
        { st.stats with
          total_incidents := st.stats.total_incidents + 1
          attestation_failures := st.stats.attestation_failures + 1
          active_incidents := st.stats.active_incidents + 1
          last_incident_time := now }) ∧
    ((incident_handle_unauthorized_access (Option.some e) st now).1 = SecureIoT.EspErr.ok ∧
      (incident_handle_unauthorized_access (Option.some e) st now).2.stats =
        { st.stats with
          total_incidents := st.stats.total_incidents + 1
          critical_incidents := st.stats.critical_incidents + 1
          active_incidents := st.stats.active_incidents + 1
          last_incident_time := now }) := by
  simp [incident_handle_integrity_failure, incident_handle_anomaly,
    incident_handle_attestation_failure, incident_handle_unauthorized_access, hinit]

/-- Witness for claim C5: the amended theorem applied to the fresh state and
a concrete event. -/
theorem claim5_witness :
    ((incident_handle_integrity_failure (Option.some sampleEvent) incidentStart 7).1 = SecureIoT.EspErr.ok ∧
      (incident_handle_integrity_failure (Option.some sampleEvent) incidentStart 7).2.stats =
        { incidentStart.stats with
          total_incidents := incidentStart.stats.total_incidents + 1
          critical_incidents := incidentStart.stats.critical_incidents + 1
          integrity_failures := incidentStart.stats.integrity_failures + 1
          active_incidents := incidentStart.stats.active_incidents + 1
          last_incident_time := 7 }) ∧
    ((incident_handle_anomaly (Option.some sampleEvent) incidentStart 7).1 = SecureIoT.EspErr.ok ∧
      (incident_handle_anomaly (Option.some sampleEvent) incidentStart 7).2.stats =
        { incidentStart.stats with
          total_incidents := incidentStart.stats.total_incidents + 1
          anomaly_detections := incidentStart.stats.anomaly_detections + 1
          active_incidents := incidentStart.stats.active_incidents + 1
          last_incident_time := 7 }) ∧
    ((incident_handle_attestation_failure (Option.some sampleEvent) incidentStart 7).1 = SecureIoT.EspErr.ok ∧
      (incident_handle_attestation_failure (Option.some sampleEvent) incidentStart 7).2.stats =
        { incidentStart.stats with
          total_incidents := incidentStart.stats.total_incidents + 1
          attestation_failures := incidentStart.stats.attestation_failures + 1
          active_incidents := incidentStart.stats.active_incidents + 1
          last_incident_time := 7 }) ∧
    ((incident_handle_unauthorized_access (Option.some sampleEvent) incidentStart 7).1 = SecureIoT.EspErr.ok ∧
      (incident_handle_unauthorized_access (Option.some sampleEvent) incidentStart 7).2.stats =
        { incidentStart.stats with
          total_incidents := incidentStart.stats.total_incidents + 1
          critical_incidents := incidentStart.stats.critical_incidents + 1
          active_incidents := incidentStart.stats.active_incidents + 1
          last_incident_time := 7 }) :=
  claim5_incident_counters sampleEvent incidentStart 7 rfl

end SecureIoT.Incident

namespace SecureIoT.Anomaly

/-- Unfolding of a successful baseline update. -/
lemma update_baseline_ok (d : SensorData) (ctx : AnomalyContext)
    (hinit : ctx.initialized = true) (hv : d.is_valid = true) :
    anomaly_update_baseline (Option.some d) ctx =
      (SecureIoT.EspErr.ok,
        { ctx with
          sensor_data := Function.update ctx.sensor_data ctx.write_index (d.temperature, d.humidity)
          timestamps := Function.update ctx.timestamps ctx.write_index d.timestamp
          write_index := (ctx.write_index + 1) % ANOMALY_HISTORY_SIZE
          sample_count :=
            if ctx.sample_count < ANOMALY_HISTORY_SIZE then ctx.sample_count + 1
            else ctx.sample_count }) := by
  simp [anomaly_update_baseline, hinit, hv]

/-- The successor state of a detection call is the original state, the state
after the baseline update, or the latter with the learning flag cleared. -/
lemma detect_state_cases (data : Option SensorData) (ctx : AnomalyContext) (now : Nat) :
    (anomaly_detect_sensor_data data ctx now).2 = ctx ∨
    (anomaly_detect_sensor_data data ctx now).2 = (anomaly_update_baseline data ctx).2 ∨
    (anomaly_detect_sensor_data data ctx now).2 =
      { (anomaly_update_baseline data ctx).2 with is_learning := false } := by
  cases data with
  | none => exact Or.inl rfl
  | some d =>
    unfold anomaly_detect_sensor_data
    dsimp only
    split_ifs <;> simp_all

end SecureIoT.Anomaly

namespace SecureIoT.Anomaly

/-- Claim C10: a NULL sample, an invalid sample, or a call before
initialization yields a no-anomaly result (is_anomaly false, type none) and
leaves the detector state completely unchanged. -/
theorem claim10_detect_rejects (data : Option SensorData) (ctx : AnomalyContext) (now : Nat)
    (h : data = Option.none ∨ (∃ d, data = Option.some d ∧ d.is_valid = false) ∨
         ctx.initialized = false) :
    (anomaly_detect_sensor_data data ctx now).1.is_anomaly = false ∧
    (anomaly_detect_sensor_data data ctx now).1.type = AnomalyType.none ∧
    (anomaly_detect_sensor_data data ctx now).2 = ctx := by
  rcases h with h | ⟨d, rfl, hv⟩ | h
  · subst h
    exact ⟨rfl, rfl, rfl⟩
  · simp [anomaly_detect_sensor_data, hv]
  · cases data with
    | none => exact ⟨rfl, rfl, rfl⟩
    | some d => simp [anomaly_detect_sensor_data, h]

/-- Witness for claim C10: the theorem applied to a NULL sample against the
freshly initialised detector. -/
theorem claim10_witness :
    (anomaly_detect_sensor_data Option.none (anomaly_detector_init 0) 5).1.is_anomaly = false ∧
    (anomaly_detect_sensor_data Option.none (anomaly_detector_init 0) 5).1.type = AnomalyType.none ∧
    (anomaly_detect_sensor_data Option.none (anomaly_detector_init 0) 5).2 = anomaly_detector_init 0 :=
  claim10_detect_rejects Option.none (anomaly_detector_init 0) 5 (Or.inl rfl)

/-- Claim C9: the write index stays strictly below the capacity
ANOMALY_HISTORY_SIZE = 100 and the fill count never exceeds 100 across
initialisation, baseline updates and detection calls; each accepted sample
increments the fill count by exactly 1 until the buffer is full, after which
the count stays at 100 and writes overwrite a single slot in place. -/
theorem claim9_history_invariant (ctx : AnomalyContext) (data : Option SensorData) (now : Nat)
    (hwi : ctx.write_index < ANOMALY_HISTORY_SIZE)
    (hc : ctx.sample_count ≤ ANOMALY_HISTORY_SIZE) :
    ((anomaly_detector_init now).write_index < ANOMALY_HISTORY_SIZE ∧
      (anomaly_detector_init now).sample_count = 0) ∧
    ((anomaly_update_baseline data ctx).2.write_index < ANOMALY_HISTORY_SIZE ∧
     (anomaly_update_baseline data ctx).2.sample_count ≤ ANOMALY_HISTORY_SIZE ∧
     ((anomaly_update_baseline data ctx).1 = SecureIoT.EspErr.ok →
       (ctx.sample_count < ANOMALY_HISTORY_SIZE →
         (anomaly_update_baseline data ctx).2.sample_count = ctx.sample_count + 1) ∧
       (ctx.sample_count = ANOMALY_HISTORY_SIZE →
         (anomaly_update_baseline data ctx).2.sample_count = ANOMALY_HISTORY_SIZE) ∧
       (∀ i, i ≠ ctx.write_index →
         (anomaly_update_baseline data ctx).2.sensor_data i = ctx.sensor_data i)) ∧
     ((anomaly_update_baseline data ctx).1 ≠ SecureIoT.EspErr.ok →
       (anomaly_update_baseline data ctx).2 = ctx)) ∧
    ((anomaly_detect_sensor_data data ctx now).2.write_index < ANOMALY_HISTORY_SIZE ∧
     (anomaly_detect_sensor_data data ctx now).2.sample_count ≤ ANOMALY_HISTORY_SIZE) := by
  have hbase :
      (anomaly_update_baseline data ctx).2.write_index < ANOMALY_HISTORY_SIZE ∧
      (anomaly_update_baseline data ctx).2.sample_count ≤ ANOMALY_HISTORY_SIZE ∧
      ((anomaly_update_baseline data ctx).1 = SecureIoT.EspErr.ok →
        (ctx.sample_count < ANOMALY_HISTORY_SIZE →
          (anomaly_update_baseline data ctx).2.sample_count = ctx.sample_count + 1) ∧
        (ctx.sample_count = ANOMALY_HISTORY_SIZE →
          (anomaly_update_baseline data ctx).2.sample_count = ANOMALY_HISTORY_SIZE) ∧
        (∀ i, i ≠ ctx.write_index →
          (anomaly_update_baseline data ctx).2.sensor_data i = ctx.sensor_data i)) ∧
      ((anomaly_update_baseline data ctx).1 ≠ SecureIoT.EspErr.ok →
        (anomaly_update_baseline data ctx).2 = ctx) := by
    cases data with
    | none =>
      refine ⟨hwi, hc, ?_, ?_⟩ <;> intro h
      · cases h
      · rfl
    | some d =>
      by_cases hg : ctx.initialized = false ∨ d.is_valid = false
      · rw [show anomaly_update_baseline (Option.some d) ctx = (SecureIoT.EspErr.invalidArg, ctx) by
          simp [anomaly_update_baseline, hg]]
        refine ⟨hwi, hc, ?_, ?_⟩ <;> intro h
        · cases h
        · rfl
      · push_neg at hg
        rw [update_baseline_ok d ctx (by simpa using hg.1) (by simpa using hg.2)]
        refine ⟨?_, ?_, ?_, ?_⟩
        · exact Nat.mod_lt _ (by norm_num [ANOMALY_HISTORY_SIZE])
        · dsimp only
          split_ifs with hlt
          · omega
          · exact hc
        · intro _
          refine ⟨fun hlt => by simp [hlt], fun heq => by simp [heq], fun i hi => ?_⟩
          exact Function.update_noteq hi _ _
        · intro h
          exact absurd rfl h
  refine ⟨⟨by norm_num [anomaly_detector_init, ANOMALY_HISTORY_SIZE], rfl⟩, hbase, ?_⟩
  rcases detect_state_cases data ctx now with h | h | h <;> rw [h]
  · exact ⟨hwi, hc⟩
  · exact ⟨hbase.1, hbase.2.1⟩
  · exact ⟨hbase.1, hbase.2.1⟩

/-- Witness for claim C9: the invariant applied to the fresh detector state
and a concrete valid sample. -/
theorem claim9_witness :
    (anomaly_detector_init 0).write_index < ANOMALY_HISTORY_SIZE ∧
    (anomaly_detector_init 0).sample_count ≤ ANOMALY_HISTORY_SIZE ∧
    ((anomaly_update_baseline
        (Option.some { temperature := 21, humidity := 50, timestamp := 1,
                       is_valid := true, sensor_id := 0, quality_score := 100 })
        (anomaly_detector_init 0)).2.sample_count ≤ ANOMALY_HISTORY_SIZE ∧
     (anomaly_update_baseline
        (Option.some { temperature := 21, humidity := 50, timestamp := 1,
                       is_valid := true, sensor_id := 0, quality_score := 100 })
        (anomaly_detector_init 0)).2.write_index < ANOMALY_HISTORY_SIZE) := by
  have h := claim9_history_invariant (anomaly_detector_init 0)
    (Option.some { temperature := 21, humidity := 50, timestamp := 1,
                   is_valid := true, sensor_id := 0, quality_score := 100 }) 0
    (by norm_num [anomaly_detector_init, ANOMALY_HISTORY_SIZE])
    (by norm_num [anomaly_detector_init, ANOMALY_HISTORY_SIZE])
  exact ⟨h.1.1, by norm_num [anomaly_detector_init, ANOMALY_HISTORY_SIZE],
    h.2.1.2.1, h.2.1.1⟩

end SecureIoT.Anomaly

namespace SecureIoT.Integrity

/-- Every aggregation step counts the checked chunk in exactly one of the
verified, corrupted, or failed buckets, and leaves total_chunks alone. -/
lemma recordChunkStatus_counts (r : IntegrityResult) (i : Nat) (s : IntegrityStatus) :
    (recordChunkStatus r i s).verified_chunks + (recordChunkStatus r i s).corrupted_chunks +
        (recordChunkStatus r i s).failed_chunks =
      r.verified_chunks + r.corrupted_chunks + r.failed_chunks + 1 ∧
    (recordChunkStatus r i s).total_chunks = r.total_chunks := by
  cases s <;> simp [recordChunkStatus] <;> omega

/-- The verification loop adds exactly one bucket entry per visited index and
preserves total_chunks. -/
lemma fullScanLoop_counts (env : Env) (idxs : List Nat) :
    ∀ acc : IntegrityResult × IntegrityState,
      (fullScanLoop env acc idxs).1.verified_chunks +
          (fullScanLoop env acc idxs).1.corrupted_chunks +
          (fullScanLoop env acc idxs).1.failed_chunks =
        acc.1.verified_chunks + acc.1.corrupted_chunks + acc.1.failed_chunks + idxs.length ∧
      (fullScanLoop env acc idxs).1.total_chunks = acc.1.total_chunks := by
  induction idxs with
  | nil => intro acc; simp [fullScanLoop]
  | cons i is ih =>
    intro acc
    have hrw : fullScanLoop env acc (i :: is) =
        fullScanLoop env
          (recordChunkStatus acc.1 i (integrity_check_chunk env acc.2 i).1,
           (integrity_check_chunk env acc.2 i).2) is := rfl
    have hstep := recordChunkStatus_counts acc.1 i (integrity_check_chunk env acc.2 i).1
    have htail := ih (recordChunkStatus acc.1 i (integrity_check_chunk env acc.2 i).1,
                      (integrity_check_chunk env acc.2 i).2)
    rw [hrw]
    refine ⟨?_, ?_⟩
    · rw [htail.1]
      simp only [List.length_cons]
      omega
    · rw [htail.2]
      exact hstep.2

/-- The global-signature postlude does not modify any of the chunk
counters. -/
lemma applyGlobalSignature_counts (env : Env) (st : IntegrityState) (r : IntegrityResult) :
    (applyGlobalSignature env st r).verified_chunks = r.verified_chunks ∧
    (applyGlobalSignature env st r).corrupted_chunks = r.corrupted_chunks ∧
    (applyGlobalSignature env st r).failed_chunks = r.failed_chunks ∧
    (applyGlobalSignature env st r).total_chunks = r.total_chunks := by
  unfold applyGlobalSignature
  split_ifs <;> simp

/-- Claim C8: whenever the detailed full verification fills a result record,
the verified, corrupted and failed counts add up exactly to total_chunks,
which equals the engine's chunk count. -/
theorem claim8_full_scan_aggregate (env : Env) (st : IntegrityState) (r : IntegrityResult)
    (hinit : st.initialized = true) (hm : env.mutexOk = true)
    (hcount : st.metadata.chunk_count ≤ INTEGRITY_MAX_CHUNKS)
    (hr : (integrity_check_firmware_detailed env st).2.1 = Option.some r) :
    r.verified_chunks + r.corrupted_chunks + r.failed_chunks = r.total_chunks ∧
    r.total_chunks = st.metadata.chunk_count := by
  simp only [integrity_check_firmware_detailed, hinit, hm, Bool.true_eq_false, if_false,
    Option.some.injEq] at hr
  have hloop := fullScanLoop_counts env
    (List.range (min st.metadata.chunk_count INTEGRITY_MAX_CHUNKS))
    (({ total_chunks := st.metadata.chunk_count } : IntegrityResult), st)
  have hsig := applyGlobalSignature_counts env
    (fullScanLoop env (({ total_chunks := st.metadata.chunk_count } : IntegrityResult), st)
      (List.range (min st.metadata.chunk_count INTEGRITY_MAX_CHUNKS))).2
    (fullScanLoop env (({ total_chunks := st.metadata.chunk_count } : IntegrityResult), st)
      (List.range (min st.metadata.chunk_count INTEGRITY_MAX_CHUNKS))).1
  rw [← hr]
  have hmin : min st.metadata.chunk_count INTEGRITY_MAX_CHUNKS = st.metadata.chunk_count :=
    Nat.min_eq_left hcount
  constructor
  · rw [hsig.1, hsig.2.1, hsig.2.2.1, hsig.2.2.2, hloop.1, hloop.2]
    simp [hmin]
  · rw [hsig.2.2.2, hloop.2]

/-- Witness for claim C8: the aggregate identity evaluated on the one-chunk
engine in the healthy environment. -/
theorem claim8_witness :
    stGood.initialized = true ∧ envW.mutexOk = true ∧
    stGood.metadata.chunk_count ≤ INTEGRITY_MAX_CHUNKS ∧
    (resultGood.verified_chunks + resultGood.corrupted_chunks + resultGood.failed_chunks =
        resultGood.total_chunks ∧
     resultGood.total_chunks = stGood.metadata.chunk_count) :=
  ⟨rfl, rfl, by decide,
    claim8_full_scan_aggregate envW stGood resultGood rfl rfl (by decide) (by decide)⟩

end SecureIoT.Integrity

namespace SecureIoT.Integrity

/-- Claim C3 (code evaluation at the failing input): with an intact chunk the
check returns OK and returns OK again on the repeated call; with the chunk
bytes mutated the check returns Corrupted, yet the whole statistics record —
including corruption_detections — is left unchanged, because no code path of
integrity_check_chunk ever increments the corruption counter. -/
theorem claim3_corruption_counter_not_incremented :
    (integrity_check_chunk envW stGood 0).1 = IntegrityStatus.ok ∧
    (integrity_check_chunk envW (integrity_check_chunk envW stGood 0).2 0).1 =
      IntegrityStatus.ok ∧
    (integrity_check_chunk envW stBad 0).1 = IntegrityStatus.corrupted ∧
    (integrity_check_chunk envW stBad 0).2.stats = stBad.stats ∧
    (integrity_check_chunk envW stBad 0).2.stats.corruption_detections =
      stBad.stats.corruption_detections := by
  refine ⟨by decide, by decide, by decide, by decide, by decide⟩

/-- Claim C4: when the metadata fails validation — wrong magic, wrong
version, or a self-checksum that does not match the recomputed one — the
engine initialisation returns the failure code, leaves the engine
unstarted, and does not touch the metadata. -/
theorem claim4_metadata_tamper_rejected (cfg : Option IntegrityConfig) (env : Env)
    (st : IntegrityState) (hni : st.initialized = false) (hm : env.mutexCreateOk = true)
    (hbad : st.metadata.magic ≠ INTEGRITY_MAGIC ∨
            st.metadata.version ≠ INTEGRITY_METADATA_VERSION ∨
            calculate_metadata_checksum st.metadata ≠ st.metadata.checksum) :
    integrity_validate_metadata st.metadata = false ∧
    (integrity_checker_init cfg env st).1 = SecureIoT.EspErr.fail ∧
    (integrity_checker_init cfg env st).2.initialized = false ∧
    (integrity_checker_init cfg env st).2.metadata = st.metadata := by
  have hval : integrity_validate_metadata st.metadata = false := by
    simp only [integrity_validate_metadata, decide_eq_false_iff_not]
    rcases hbad with h | h | h <;> tauto
  refine ⟨hval, ?_, ?_, ?_⟩ <;>
    simp [integrity_checker_init, hni, hm, hval]

set_option maxRecDepth 4000 in
/-- Witness for claim C4: initialisation against the metadata block whose
stored self-checksum (1) differs from the recomputed self-checksum (0). -/
theorem claim4_witness :
    stTampered.initialized = false ∧ envW.mutexCreateOk = true ∧
    calculate_metadata_checksum stTampered.metadata ≠ stTampered.metadata.checksum ∧
    (integrity_validate_metadata stTampered.metadata = false ∧
     (integrity_checker_init Option.none envW stTampered).1 = SecureIoT.EspErr.fail ∧
     (integrity_checker_init Option.none envW stTampered).2.initialized = false ∧
     (integrity_checker_init Option.none envW stTampered).2.metadata = stTampered.metadata) :=
  ⟨rfl, rfl, by decide,
    claim4_metadata_tamper_rejected Option.none envW stTampered rfl rfl
      (Or.inr (Or.inr (by decide)))⟩

end SecureIoT.Integrity

namespace SecureIoT.Attestation

open SecureIoT.Integrity

/-- Claim C1 (code evaluation at the failing input): with the secure element
answering successfully but the bound integrity check failing (the single
chunk is corrupted), the continuous attestation cycle returns a failure
status — but the returned record still carries is_valid = true, the validity
flag set by the earlier signing step. -/
theorem claim1_invalid_flag_kept :
    (integrity_check_firmware envW stBad).1 ≠ IntegrityStatus.ok ∧
    (attestation_perform_continuous attEnvW envW astW stBad).1.status =
      AttestationStatus.signatureFailed ∧
    (attestation_perform_continuous attEnvW envW astW stBad).1.status ≠
      AttestationStatus.success ∧
    (attestation_perform_continuous attEnvW envW astW stBad).1.is_valid = true := by
  refine ⟨by decide, by decide, by decide, by decide⟩

/-- Claim C2 counterexample: in a state whose four critical chunks are all
intact (the critical-sections check returns OK) but whose fifth, non-critical
chunk is corrupted, the continuous attestation cycle fails — so the
attestation verdict is not the verdict of the critical-sections check, and
perform_continuous does not invoke verify_critical_sections. -/
theorem claim2_counterexample :
    (integrity_check_critical_sections envW stMixed).1 = IntegrityStatus.ok ∧
    (attestation_perform_continuous attEnvW envW astW stMixed).1.status ≠
      AttestationStatus.success ∧
    (attestation_perform_continuous attEnvW envW astW stMixed).1.status =
      AttestationStatus.signatureFailed := by
  refine ⟨by decide, by decide, by decide⟩

/-- Claim C2 (amended): every continuous attestation cycle synchronously
invokes the full-firmware integrity check integrity_check_firmware (not the
critical-sections check), and — when the random source and the secure
element cooperate — the cycle verdict is contingent on that full-image
verdict: the cycle fails whenever the full check is non-OK and succeeds with
a valid record whenever it is OK. -/
theorem claim2_full_check_bound (env : AttEnv) (ienv : Env) (ast : AttState)
    (ist : IntegrityState) (hinit : ast.initialized = true)
    (hrng : env.randomOk = true) (hse : env.seAttestOk = true) :
    ((integrity_check_firmware ienv ist).1 ≠ IntegrityStatus.ok →
      (attestation_perform_continuous env ienv ast ist).1.status =
        AttestationStatus.signatureFailed ∧
      (attestation_perform_continuous env ienv ast ist).2.2 =
        (integrity_check_firmware ienv ist).2) ∧
    ((integrity_check_firmware ienv ist).1 = IntegrityStatus.ok →
      (attestation_perform_continuous env ienv ast ist).1.status =
        AttestationStatus.success ∧
      (attestation_perform_continuous env ienv ast ist).1.is_valid = true ∧
      (attestation_perform_continuous env ienv ast ist).2.2 =
        (integrity_check_firmware ienv ist).2) := by
  have hchal : (bytesOf env.randomBytes ATTESTATION_CHALLENGE_SIZE).length =
      ATTESTATION_CHALLENGE_SIZE := by
    simp [bytesOf]
  constructor <;> intro hI <;>
    simp [attestation_perform_continuous, hinit, hrng,
      attestation_respond_to_challenge, hchal, hse, hI]

/-- Witness for claim C2: the amended theorem applied to the healthy
one-chunk engine, where the full check passes and the cycle succeeds. -/
theorem claim2_witness :
    astW.initialized = true ∧ attEnvW.randomOk = true ∧ attEnvW.seAttestOk = true ∧
    (integrity_check_firmware envW stGood).1 = IntegrityStatus.ok ∧
    ((attestation_perform_continuous attEnvW envW astW stGood).1.status =
        AttestationStatus.success ∧
     (attestation_perform_continuous attEnvW envW astW stGood).1.is_valid = true ∧
     (attestation_perform_continuous attEnvW envW astW stGood).2.2 =
        (integrity_check_firmware envW stGood).2) :=
  ⟨rfl, rfl, rfl, by decide,
    (claim2_full_check_bound attEnvW envW astW stGood rfl rfl rfl).2 (by decide)⟩

end SecureIoT.Attestation

namespace SecureIoT.Anomaly

/-- Claim C7: while the detector is in the learning state and the learning
period has not elapsed, detection returns no-anomaly for every valid sample
(however extreme) while still appending the sample to the history; once the
period has elapsed the state transitions to Active (is_learning false), and
a detector that is already Active never returns to learning through
detection. -/
theorem claim7_learning_gate (ctx : AnomalyContext) (d : SensorData) (now : Nat)
    (hinit : ctx.initialized = true) (hv : d.is_valid = true) :
    (ctx.is_learning = true →
      now - ctx.learning_start_time < ANOMALY_LEARNING_PERIOD_MS * 1000 →
      ((anomaly_detect_sensor_data (Option.some d) ctx now).1.is_anomaly = false ∧
       (anomaly_detect_sensor_data (Option.some d) ctx now).1.type = AnomalyType.none ∧
       (anomaly_detect_sensor_data (Option.some d) ctx now).2 =
         (anomaly_update_baseline (Option.some d) ctx).2)) ∧
    (ctx.is_learning = true →
      ANOMALY_LEARNING_PERIOD_MS * 1000 ≤ now - ctx.learning_start_time →
      (anomaly_detect_sensor_data (Option.some d) ctx now).2.is_learning = false) ∧
    (ctx.is_learning = false →
      (anomaly_detect_sensor_data (Option.some d) ctx now).2.is_learning = false) := by
  have hl1 : (anomaly_update_baseline (Option.some d) ctx).2.is_learning = ctx.is_learning := by
    rw [update_baseline_ok d ctx hinit hv]
  have hst : (anomaly_update_baseline (Option.some d) ctx).2.learning_start_time =
      ctx.learning_start_time := by
    rw [update_baseline_ok d ctx hinit hv]
  refine ⟨?_, ?_, ?_⟩
  · intro hl ht
    unfold anomaly_detect_sensor_data
    dsimp only
    rw [if_neg (by simp [hinit, hv])]
    rw [hl1, hst]
    rw [if_pos ⟨hl, ht⟩]
    exact ⟨rfl, rfl, rfl⟩
  · intro hl ht
    unfold anomaly_detect_sensor_data
    dsimp only
    rw [if_neg (by simp [hinit, hv])]
    rw [hl1, hst]
    rw [if_neg (by exact fun h => absurd h.2 (Nat.not_lt.mpr ht))]
    rw [if_pos hl]
    split_ifs <;> rfl
  · intro hl
    unfold anomaly_detect_sensor_data
    dsimp only
    rw [if_neg (by simp [hinit, hv])]
    rw [hl1, hst]
    rw [if_neg (show ¬(ctx.is_learning = true ∧
      now - ctx.learning_start_time < ANOMALY_LEARNING_PERIOD_MS * 1000) by simp [hl])]
    rw [if_neg (show ¬(ctx.is_learning = true) by simp [hl])]
    split_ifs <;> (dsimp only; rw [hl1]; exact hl)

end SecureIoT.Anomaly

namespace SecureIoT.Anomaly

/-- Witness for claim C7: halfway into the learning period, a sample one
million degrees hot is still classified as non-anomalous and is still
recorded in the history. -/
theorem claim7_witness :
    (anomaly_detector_init 3).initialized = true ∧ sampleExtreme.is_valid = true ∧
    (anomaly_detector_init 3).is_learning = true ∧
    3 - (anomaly_detector_init 3).learning_start_time <
      ANOMALY_LEARNING_PERIOD_MS * 1000 ∧
    ((anomaly_detect_sensor_data (Option.some sampleExtreme) (anomaly_detector_init 3) 3).1.is_anomaly = false ∧
     (anomaly_detect_sensor_data (Option.some sampleExtreme) (anomaly_detector_init 3) 3).1.type =
       AnomalyType.none ∧
     (anomaly_detect_sensor_data (Option.some sampleExtreme) (anomaly_detector_init 3) 3).2 =
       (anomaly_update_baseline (Option.some sampleExtreme) (anomaly_detector_init 3)).2) := by
  refine ⟨rfl, rfl, rfl, by norm_num [anomaly_detector_init, ANOMALY_LEARNING_PERIOD_MS], ?_⟩
  exact (claim7_learning_gate (anomaly_detector_init 3) sampleExtreme 3 rfl rfl).1 rfl
    (by norm_num [anomaly_detector_init, ANOMALY_LEARNING_PERIOD_MS])

end SecureIoT.Anomaly

namespace SecureIoT.Anomaly

/-- Sum of a function constant on an initial segment of the naturals. -/
lemma sum_map_range_const (f : Nat → ℝ) (c : ℝ) :
    ∀ n, (∀ i, i < n → f i = c) → ((List.range n).map f).sum = n * c := by
  intro n
  induction n with
  | zero => intro _; simp
  | succ n ih =>
    intro h
    rw [List.sum_range_succ]
    rw [ih (fun i hi => h i (Nat.lt_succ_of_lt hi)), h n (Nat.lt_succ_self n)]
    push_cast
    ring

/-- Evaluation rule for calculate_statistics on a list with known length, sum
and squared-deviation sum. -/
lemma calculate_statistics_eval (data : List ℝ) (n : Nat) (m sq : ℝ)
    (hn : data.length = n) (h1 : 1 < n)
    (hsum : data.sum = n * m)
    (hsq : ((data.map fun x => (x - m) * (x - m)).sum) = sq) :
    calculate_statistics data = (m, Real.sqrt (sq / ((n - 1 : Nat) : ℝ))) := by
  unfold calculate_statistics
  rw [hn]
  rw [if_neg (by omega), if_pos h1]
  have hnz : (n : ℝ) ≠ 0 := Nat.cast_ne_zero.mpr (by omega)
  have hm : data.sum / (n : ℝ) = m := by
    rw [hsum]
    field_simp
  dsimp only
  rw [hm, hsq]

end SecureIoT.Anomaly

namespace SecureIoT.Anomaly

/-- Claim C6: in the Active state with sufficient history, when the analysed
temperature history has mean 23 and sample standard deviation 1/2 and the
humidity z-score does not dominate, a new valid sample of temperature 26
scores z = |26 - 23| / (1/2) = 6, anomaly score min(6/3, 1) = 1, is flagged
anomalous (1 > 0.8) with critical severity (1 > 0.9). -/
theorem claim6_scoring (ctx : AnomalyContext) (d : SensorData) (now : Nat)
    (hinit : ctx.initialized = true) (hlearn : ctx.is_learning = false)
    (hv : d.is_valid = true) (htemp : d.temperature = 26)
    (hwin : ANOMALY_WINDOW_SIZE ≤ (anomaly_update_baseline (Option.some d) ctx).2.sample_count)
    (hmean : (calculate_statistics (tempHistory (anomaly_update_baseline (Option.some d) ctx).2)).1 = 23)
    (hstd : (calculate_statistics (tempHistory (anomaly_update_baseline (Option.some d) ctx).2)).2 = 1 / 2)
    (hhum : calculate_zscore d.humidity
        (calculate_statistics (humidityHistory (anomaly_update_baseline (Option.some d) ctx).2)).1
        (calculate_statistics (humidityHistory (anomaly_update_baseline (Option.some d) ctx).2)).2 ≤ 6) :
    calculate_zscore d.temperature
        (calculate_statistics (tempHistory (anomaly_update_baseline (Option.some d) ctx).2)).1
        (calculate_statistics (tempHistory (anomaly_update_baseline (Option.some d) ctx).2)).2 = 6 ∧
    (anomaly_detect_sensor_data (Option.some d) ctx now).1.anomaly_score = 1 ∧
    (anomaly_detect_sensor_data (Option.some d) ctx now).1.is_anomaly = true ∧
    (anomaly_detect_sensor_data (Option.some d) ctx now).1.severity = 4 ∧
    (anomaly_detect_sensor_data (Option.some d) ctx now).1.type = AnomalyType.sensorData := by
  have hl1 : (anomaly_update_baseline (Option.some d) ctx).2.is_learning = ctx.is_learning := by
    rw [update_baseline_ok d ctx hinit hv]
  have htz : calculate_zscore d.temperature
      (calculate_statistics (tempHistory (anomaly_update_baseline (Option.some d) ctx).2)).1
      (calculate_statistics (tempHistory (anomaly_update_baseline (Option.some d) ctx).2)).2 = 6 := by
    rw [hmean, hstd, htemp, calculate_zscore]
    rw [if_neg (by norm_num)]
    rw [abs_of_nonneg (by norm_num)]
    norm_num
  refine ⟨htz, ?_⟩
  unfold anomaly_detect_sensor_data
  dsimp only
  rw [if_neg (by simp [hinit, hv])]
  rw [hl1]
  rw [if_neg (show ¬(ctx.is_learning = true ∧
    now - (anomaly_update_baseline (Option.some d) ctx).2.learning_start_time <
      ANOMALY_LEARNING_PERIOD_MS * 1000) by simp [hlearn])]
  rw [if_neg (show ¬(ctx.is_learning = true) by simp [hlearn])]
  rw [if_neg (Nat.not_lt.mpr hwin)]
  rw [htz]
  rw [max_eq_left hhum]
  rw [show min ((6 : ℝ) / 3) 1 = 1 by norm_num]
  rw [if_pos (show ANOMALY_SCORE_THRESHOLD < (1 : ℝ) by norm_num [ANOMALY_SCORE_THRESHOLD])]
  rw [if_pos (show (0.9 : ℝ) < 1 by norm_num)]
  exact ⟨rfl, rfl, rfl, rfl⟩

end SecureIoT.Anomaly

namespace SecureIoT.Anomaly

lemma scoring_update_sd :
    (anomaly_update_baseline (Option.some sampleHot) ctxScoring).2.sensor_data =
      Function.update bufScoring 37 ((26 : ℝ), (50 : ℝ)) := by
  rw [update_baseline_ok sampleHot ctxScoring rfl rfl]
  rfl

lemma scoring_update_count :
    (anomaly_update_baseline (Option.some sampleHot) ctxScoring).2.sample_count = 38 := by
  rw [update_baseline_ok sampleHot ctxScoring rfl rfl]
  rfl

lemma scoring_g_lt (i : Nat) (hi : i < 36) :
    (Function.update bufScoring 37 ((26 : ℝ), (50 : ℝ)) i).1 = 275 / 12 := by
  rw [Function.update_noteq (by omega)]
  simp [bufScoring, hi]

lemma scoring_g_36 :
    (Function.update bufScoring 37 ((26 : ℝ), (50 : ℝ)) 36).1 = 23 := by
  rw [Function.update_noteq (by omega)]
  simp [bufScoring]

lemma scoring_g_37 :
    (Function.update bufScoring 37 ((26 : ℝ), (50 : ℝ)) 37).1 = 26 := by
  rw [Function.update_same]

lemma scoring_h_all (i : Nat) (hi : i < 38) :
    (Function.update bufScoring 37 ((26 : ℝ), (50 : ℝ)) i).2 = 50 := by
  by_cases h37 : i = 37
  · rw [h37, Function.update_same]
  · rw [Function.update_noteq h37]
    by_cases h36 : i < 36
    · simp [bufScoring, h36]
    · have : i = 36 := by omega
      simp [bufScoring, this]

lemma scoring_temp_history :
    tempHistory (anomaly_update_baseline (Option.some sampleHot) ctxScoring).2 =
      (List.range 38).map (fun i => (Function.update bufScoring 37 ((26 : ℝ), (50 : ℝ)) i).1) := by
  unfold tempHistory tempHistoryIdx
  rw [scoring_update_count, scoring_update_sd]
  norm_num [ANOMALY_HISTORY_SIZE]

lemma scoring_hum_history :
    humidityHistory (anomaly_update_baseline (Option.some sampleHot) ctxScoring).2 =
      (List.range 38).map (fun i => (Function.update bufScoring 37 ((26 : ℝ), (50 : ℝ)) i).2) := by
  unfold humidityHistory tempHistoryIdx
  rw [scoring_update_count, scoring_update_sd]
  norm_num [ANOMALY_HISTORY_SIZE]

lemma scoring_temp_sum :
    ((List.range 38).map (fun i => (Function.update bufScoring 37 ((26 : ℝ), (50 : ℝ)) i).1)).sum
      = 38 * 23 := by
  rw [show (38 : ℕ) = Nat.succ 37 from rfl, List.sum_range_succ]
  rw [show (37 : ℕ) = Nat.succ 36 from rfl, List.sum_range_succ]
  rw [sum_map_range_const _ (275 / 12) 36 scoring_g_lt, scoring_g_36, scoring_g_37]
  norm_num

lemma scoring_temp_sq :
    (((List.range 38).map (fun i => (Function.update bufScoring 37 ((26 : ℝ), (50 : ℝ)) i).1)).map
        (fun x => (x - 23) * (x - 23))).sum = 37 / 4 := by
  rw [List.map_map]
  rw [show (38 : ℕ) = Nat.succ 37 from rfl, List.sum_range_succ]
  rw [show (37 : ℕ) = Nat.succ 36 from rfl, List.sum_range_succ]
  rw [sum_map_range_const _ (1 / 144) 36 (fun i hi => by
    simp only [Function.comp_apply, scoring_g_lt i hi]
    norm_num)]
  simp only [Function.comp_apply, scoring_g_36, scoring_g_37]
  norm_num

lemma scoring_temp_stats :
    calculate_statistics (tempHistory (anomaly_update_baseline (Option.some sampleHot) ctxScoring).2) =
      (23, 1 / 2) := by
  rw [scoring_temp_history]
  rw [calculate_statistics_eval _ 38 23 (37 / 4) (by simp) (by norm_num)
    (by rw [scoring_temp_sum]; norm_num) scoring_temp_sq]
  have h14 : ((37 : ℝ) / 4) / ((38 - 1 : Nat) : ℝ) = (1 / 2) ^ 2 := by norm_num
  rw [h14, Real.sqrt_sq (by norm_num)]

lemma scoring_hum_stats :
    calculate_statistics (humidityHistory (anomaly_update_baseline (Option.some sampleHot) ctxScoring).2) =
      (50, 0) := by
  rw [scoring_hum_history]
  rw [calculate_statistics_eval _ 38 50 0 (by simp) (by norm_num)
    (by rw [sum_map_range_const _ 50 38 scoring_h_all])
    (by
      rw [List.map_map]
      rw [sum_map_range_const _ 0 38 (fun i hi => by
        simp only [Function.comp_apply, scoring_h_all i hi]
        norm_num)]
      norm_num)]
  norm_num [Real.sqrt_zero]

end SecureIoT.Anomaly

namespace SecureIoT.Anomaly

/-- Witness for claim C6: the 38-sample window (36 readings of 275/12, one
of 23, plus the new reading of 26) has temperature mean 23 and standard
deviation 1/2, and the new sample of 26 is scored 1.0 and flagged critical. -/
theorem claim6_witness :
    ctxScoring.is_learning = false ∧ sampleHot.temperature = 26 ∧
    (calculate_statistics (tempHistory
        (anomaly_update_baseline (Option.some sampleHot) ctxScoring).2)).1 = 23 ∧
    (calculate_statistics (tempHistory
        (anomaly_update_baseline (Option.some sampleHot) ctxScoring).2)).2 = 1 / 2 ∧
    (calculate_zscore sampleHot.temperature
        (calculate_statistics (tempHistory
          (anomaly_update_baseline (Option.some sampleHot) ctxScoring).2)).1
        (calculate_statistics (tempHistory
          (anomaly_update_baseline (Option.some sampleHot) ctxScoring).2)).2 = 6 ∧
     (anomaly_detect_sensor_data (Option.some sampleHot) ctxScoring 100).1.anomaly_score = 1 ∧
     (anomaly_detect_sensor_data (Option.some sampleHot) ctxScoring 100).1.is_anomaly = true ∧
     (anomaly_detect_sensor_data (Option.some sampleHot) ctxScoring 100).1.severity = 4 ∧
     (anomaly_detect_sensor_data (Option.some sampleHot) ctxScoring 100).1.type =
       AnomalyType.sensorData) := by
  refine ⟨rfl, rfl, by rw [scoring_temp_stats], by rw [scoring_temp_stats], ?_⟩
  exact claim6_scoring ctxScoring sampleHot 100 rfl rfl rfl rfl
    (by rw [scoring_update_count]; norm_num [ANOMALY_WINDOW_SIZE])
    (by rw [scoring_temp_stats])
    (by rw [scoring_temp_stats])
    (by rw [scoring_hum_stats]; norm_num [calculate_zscore])

end SecureIoT.Anomaly
